import Mathlib

/-!
Shallow embedding of the research-agent orchestration code in
`backend/src/agent/graph.py`, together with proofs of the spec claims
about its control loop, error containment and citation handling.

Python strings are modelled as `List Char` (`PyStr`); Python exceptions
as an explicit error type threaded through `Except`; each LangGraph node
is a Lean function from its inputs (including an explicit outcome of the
external service call it makes) to the state update it returns.
-/

namespace Agent

/-- Python strings, modelled as lists of characters. -/
abbrev PyStr := List Char

/-! ### Python string primitives used by the source

`isPrefixList pat s` is the check that `s` starts with `pat`;
`containsSub s pat` is Python's `pat in s`;
`replaceScan`/`pyReplace` is Python's `s.replace(pat, rep)`
(all non-overlapping occurrences, scanned left to right);
`pySlice n s` is Python's `s[:n]`. -/

def isPrefixList : PyStr → PyStr → Bool
  | [], _ => true
  | _ :: _, [] => false
  | p :: ps, s :: ss => p == s && isPrefixList ps ss

def containsSub : PyStr → PyStr → Bool
  | [], pat => pat.isEmpty
  | c :: rest, pat => isPrefixList pat (c :: rest) || containsSub rest pat

/-- Python `pat in s`. -/
def pyIn (pat s : PyStr) : Bool := containsSub s pat

/-- Scanner for `str.replace`: `skip` counts characters still to drop
because they were part of an already-replaced occurrence. -/
def replaceScan (pat rep : PyStr) : Nat → PyStr → PyStr
  | _, [] => []
  | k + 1, _ :: rest => replaceScan pat rep k rest
  | 0, c :: rest =>
    if isPrefixList pat (c :: rest) then
      rep ++ replaceScan pat rep (pat.length - 1) rest
    else
      c :: replaceScan pat rep 0 rest

/-- Python `s.replace(pat, rep)`; the empty-pattern case follows Python,
which inserts `rep` at every position. -/
def pyReplace (s pat rep : PyStr) : PyStr :=
  if pat = [] then rep ++ s.foldr (fun c acc => c :: (rep ++ acc)) []
  else replaceScan pat rep 0 s

/-- Python `s[:n]`. -/
def pySlice (n : Nat) (s : PyStr) : PyStr := s.take n

/-- Python `x or default` for an optional string (`None` and `""` are falsy). -/
def pyOrStr (t : Option PyStr) (d : PyStr) : PyStr :=
  match t with
  | none => d
  | some s => if s = [] then d else s

/-! ### Error model

`google.api_core.exceptions.ResourceExhausted` is a subclass of
`GoogleAPIError`, but `handle_api_error` tests `ResourceExhausted` first,
so the effective classification is the three disjoint classes below.
The payload is `str(error)`. -/

inductive PyErr where
  | resourceExhausted (detail : PyStr)
  | googleAPIError (detail : PyStr)
  | otherExc (detail : PyStr)
deriving DecidableEq

/-- Python `str(error)`. -/
def errStr : PyErr → PyStr
  | .resourceExhausted d => d
  | .googleAPIError d => d
  | .otherExc d => d

/-! ### Data model -/

/-- One entry of `sources_gathered` as used by `finalize_answer`
(a citation segment with its short url and original value). -/
structure SourceCit where
  short_url : PyStr
  value : PyStr
deriving DecidableEq

/-- The state update returned by `web_research` / `handle_api_error`. -/
structure WebUpdate where
  sources_gathered : List SourceCit
  search_query : List PyStr
  web_research_result : List PyStr
deriving DecidableEq

/-- The state update returned by `generate_query`. -/
structure QueryGenUpdate where
  query_list : List PyStr
deriving DecidableEq

/-- The structured output of the reflection model call. -/
structure ReflectionResult where
  is_sufficient : Bool
  knowledge_gap : PyStr
  follow_up_queries : List PyStr

/-- The state update returned by `reflection`. -/
structure ReflectionUpdate where
  is_sufficient : Bool
  knowledge_gap : PyStr
  follow_up_queries : List PyStr
  research_loop_count : Nat
  number_of_ran_queries : Nat

/-- The fields of the run state read by `evaluate_research`
(`max_research_loops` is `None` when not set on the state). -/
structure ReflectionState where
  is_sufficient : Bool
  follow_up_queries : List PyStr
  research_loop_count : Nat
  number_of_ran_queries : Nat
  max_research_loops : Option Nat
deriving DecidableEq

/-- A `Send("web_research", {"search_query": ..., "id": ...})` task. -/
structure SendTask where
  search_query : PyStr
  id : Nat
deriving DecidableEq

/-- The value returned by the `evaluate_research` router: either the
string `"finalize_answer"` or a list of `Send` tasks. -/
inductive Route where
  | finalize
  | fanout (tasks : List SendTask)
deriving DecidableEq

/-! ### `handle_api_error` (graph.py lines 51 to 95) -/

def quotaMsgPre : PyStr :=
  ("⚠️ **API Quota Exhausted**\n\nThe Google Search API quota has been exceeded while researching: \x27").data

def quotaMsgSuf : PyStr :=
  ("\x27\n\n**What this means:**\n- The research system has reached its daily/hourly API usage limit\n- This is a temporary limitation that will reset automatically\n- The research will continue with available information from other queries\n\n**Recommendations:**\n- Try again later when the quota resets\n- Consider using fewer search queries or reducing research depth\n- Contact the administrator if this issue persists").data

def apiMsgPre : PyStr :=
  ("⚠️ **Search API Error**\n\nAn error occurred while searching for: \x27").data

def apiMsgMid : PyStr :=
  ("\x27\n\nError details: ").data

def apiMsgSuf : PyStr :=
  ("\n\nThe research will continue with available information from other queries.").data

def unexpectedMsgPre : PyStr :=
  ("⚠️ **Research Error**\n\nAn unexpected error occurred while researching: \x27").data

def unexpectedMsgSuf : PyStr :=
  ("\x27\n\nThe research will continue with available information from other queries.").data

/-- The `fallback_message` built by `handle_api_error` for each error class. -/
def fallbackMessage : PyErr → PyStr → PyStr
  | .resourceExhausted _, q => quotaMsgPre ++ q ++ quotaMsgSuf
  | .googleAPIError d, q => apiMsgPre ++ q ++ (apiMsgMid ++ d ++ apiMsgSuf)
  | .otherExc _, q => unexpectedMsgPre ++ q ++ unexpectedMsgSuf

/-- `handle_api_error(error, search_query)`: classify the error, build the
degraded message, and return the fallback state update. -/
def handle_api_error (error : PyErr) (search_query : PyStr) : WebUpdate :=
  { sources_gathered := []
    search_query := [search_query]
    web_research_result := [fallbackMessage error search_query] }

/-! ### `generate_query` (graph.py lines 99 to 153)

The external structured-output call either succeeds with a query list or
raises; both `except` clauses return the same truncation fallback. -/

inductive GenOutcome where
  | success (queries : List PyStr)
  | raiseErr (e : PyErr)

def generate_query (research_topic : PyStr) (o : GenOutcome) : Except PyErr QueryGenUpdate :=
  match o with
  | .success qs => .ok { query_list := qs }
  | .raiseErr _ => .ok { query_list := [pySlice 100 research_topic] }

/-! ### `continue_to_web_research` (graph.py lines 156 to 164) -/

def continue_to_web_research (query_list : List PyStr) : List SendTask :=
  query_list.enum.map fun p => { search_query := p.2, id := p.1 }

/-! ### `web_research` (graph.py lines 167 to 237)

The outcome of the external grounded-search call and of the citation
post-processing (`resolve_urls` / `get_citations` /
`insert_citation_markers`, which live in `agent/utils.py` and run inside
the same `try`) is an explicit parameter. -/

inductive GroundedOutcome where
  | raiseErr (e : PyErr)
  | emptyResponse
  | noGrounding (text : Option PyStr)
  | grounded (post : Except PyErr (PyStr × List SourceCit))

def noResultsText : PyStr := ("No search results available.").data

def emptyRespDetail : PyStr := ("Empty response from API").data

/-- The body of `web_research`'s `try` block: it can raise
(`Except.error`), which the except clauses of `web_research` then catch. -/
def webResearchBody (search_query : PyStr) (o : GroundedOutcome) : Except PyErr WebUpdate :=
  match o with
  | .raiseErr e => .error e
  | .emptyResponse => .ok (handle_api_error (.otherExc emptyRespDetail) search_query)
  | .noGrounding t =>
    .ok { sources_gathered := []
          search_query := [search_query]
          web_research_result := [pyOrStr t noResultsText] }
  | .grounded (.error e) => .error e
  | .grounded (.ok (modifiedText, segments)) =>
    .ok { sources_gathered := segments
          search_query := [search_query]
          web_research_result := [modifiedText] }

/-- `web_research`: the try body with both except clauses, each of which
routes the caught error through `handle_api_error`. -/
def web_research (search_query : PyStr) (o : GroundedOutcome) : Except PyErr WebUpdate :=
  match webResearchBody search_query o with
  | .error e => .ok (handle_api_error e search_query)
  | .ok u => .ok u

/-! ### `reflection` (graph.py lines 240 to 306) -/

inductive ReflOutcome where
  | success (r : ReflectionResult)
  | raiseErr (e : PyErr)

def reflApiGapPre : PyStr := ("Unable to perform reflection due to API error: ").data

def reflUnexpectedGapPre : PyStr := ("Unable to perform reflection due to unexpected error: ").data

/-- `reflection(state, config)`: increments the loop count
(`state.get("research_loop_count", 0) + 1`), then either propagates the
structured evaluation or, on any exception, falls back to
`is_sufficient = True` with empty follow-ups. -/
def reflection (prevLoopCount : Option Nat) (numRanQueries : Nat) (o : ReflOutcome) :
    Except PyErr ReflectionUpdate :=
  let cnt := prevLoopCount.getD 0 + 1
  match o with
  | .success r =>
    .ok { is_sufficient := r.is_sufficient
          knowledge_gap := r.knowledge_gap
          follow_up_queries := r.follow_up_queries
          research_loop_count := cnt
          number_of_ran_queries := numRanQueries }
  | .raiseErr e =>
    match e with
    | .resourceExhausted _ =>
      .ok { is_sufficient := true
            knowledge_gap := reflApiGapPre ++ errStr e
            follow_up_queries := []
            research_loop_count := cnt
            number_of_ran_queries := numRanQueries }
    | .googleAPIError _ =>
      .ok { is_sufficient := true
            knowledge_gap := reflApiGapPre ++ errStr e
            follow_up_queries := []
            research_loop_count := cnt
            number_of_ran_queries := numRanQueries }
    | .otherExc _ =>
      .ok { is_sufficient := true
            knowledge_gap := reflUnexpectedGapPre ++ errStr e
            follow_up_queries := []
            research_loop_count := cnt
            number_of_ran_queries := numRanQueries }

/-! ### `evaluate_research` (graph.py lines 309 to 343) -/

def evaluate_research (state : ReflectionState) (configMaxLoops : Nat) : Route :=
  let maxLoops := state.max_research_loops.getD configMaxLoops
  if state.is_sufficient = true ∨ maxLoops ≤ state.research_loop_count then
    .finalize
  else
    .fanout (state.follow_up_queries.enum.map
      fun p => { search_query := p.2, id := state.number_of_ran_queries + p.1 })

/-! ### `finalize_answer` citation pass (graph.py lines 382 to 395) -/

/-- One iteration of the `for source in state["sources_gathered"]` loop in
`finalize_answer`: the accumulator is the current answer text and the
`unique_sources` list built so far. -/
def citeStep (acc : PyStr × List SourceCit) (source : SourceCit) : PyStr × List SourceCit :=
  if pyIn source.short_url acc.1 = true then
    (pyReplace acc.1 source.short_url source.value, acc.2 ++ [source])
  else
    acc

/-- The whole citation pass of `finalize_answer`: a single left-to-right
fold over the gathered sources. -/
def finalizeCitations (content : PyStr) (sources : List SourceCit) : PyStr × List SourceCit :=
  sources.foldl citeStep (content, [])

/-! ### Run-state merging and the multi-round run model

`agent/state.py` is not part of the sources provided, so the reducers of
`OverallState` are modelled from the spec. -/

/-- The fields of the shared run state that the modelled rounds touch. -/
structure OverallState where
  search_query : List PyStr
  web_research_result : List PyStr
  sources_gathered : List SourceCit
  research_loop_count : Option Nat
  max_research_loops : Option Nat

/-- Modelled from the spec: `agent/state.py` (the `OverallState`
annotated reducers) is not under the provided sources. Per the spec,
`executedQueries`, `researchResults` and `sources` are append-only
accumulators, and `roundCount` is set only by the evaluation stage, so
merging a `web_research` update appends its lists and leaves the loop
count (and the configured maximum) unchanged. -/
def applyWebUpdate (s : OverallState) (u : WebUpdate) : OverallState :=
  { search_query := s.search_query ++ u.search_query
    web_research_result := s.web_research_result ++ u.web_research_result
    sources_gathered := s.sources_gathered ++ u.sources_gathered
    research_loop_count := s.research_loop_count
    max_research_loops := s.max_research_loops }

/-- Execute one fanned-out batch of `web_research` tasks and merge each
task's update into the run state (the outcome of task `i`'s external call
is `f i`; an uncaught error would abort the run, merging nothing). -/
def applyBatch : OverallState → List PyStr → (Nat → GroundedOutcome) → OverallState
  | st, [], _ => st
  | st, q :: rest, f =>
    applyBatch
      (match web_research q (f 0) with
       | .ok u => applyWebUpdate st u
       | .error _ => st)
      rest (fun i => f (i + 1))

/-- The inputs one loop round depends on: the reflection call's outcome
and the outcomes of the external calls of the round's research tasks. -/
structure RoundInput where
  refl : ReflOutcome
  outcomes : Nat → GroundedOutcome

/-- The research loop after the initial batch: run `reflection`, route
with `evaluate_research`, and on a fan-out execute the follow-up batch
and recurse; returns every `Send` task fanned out. -/
def runLoop (configMaxLoops : Nat) : OverallState → List RoundInput → List SendTask
  | _, [] => []
  | st, r :: rest =>
    match reflection st.research_loop_count st.search_query.length r.refl with
    | .error _ => []
    | .ok ru =>
      match evaluate_research
          { is_sufficient := ru.is_sufficient
            follow_up_queries := ru.follow_up_queries
            research_loop_count := ru.research_loop_count
            number_of_ran_queries := ru.number_of_ran_queries
            max_research_loops := st.max_research_loops } configMaxLoops with
      | .finalize => []
      | .fanout tasks =>
        tasks ++ runLoop configMaxLoops
          (applyBatch { st with research_loop_count := some ru.research_loop_count }
            ru.follow_up_queries r.outcomes)
          rest

/-- All `Send` tasks fanned out over a whole run: the initial batch from
`continue_to_web_research`, then every follow-up batch from
`evaluate_research`. -/
def allTasks (configMaxLoops : Nat) (initialQueries : List PyStr)
    (f0 : Nat → GroundedOutcome) (rounds : List RoundInput) : List SendTask :=
  continue_to_web_research initialQueries ++
    runLoop configMaxLoops
      (applyBatch
        { search_query := []
          web_research_result := []
          sources_gathered := []
          research_loop_count := none
          max_research_loops := none }
        initialQueries f0)
      rounds

/-! ### Helper lemmas -/

lemma isPrefixList_append_self (p r : PyStr) : isPrefixList p (p ++ r) = true := by
  induction p with
  | nil => rfl
  | cons c cs ih => simp [isPrefixList, ih]

lemma containsSub_of_prefixAt {s pat : PyStr} (h : isPrefixList pat s = true) :
    containsSub s pat = true := by
  cases s with
  | nil =>
    cases pat with
    | nil => rfl
    | cons c cs => simp [isPrefixList] at h
  | cons c rest => simp [containsSub, h]

lemma containsSub_cons {pat : PyStr} (c : Char) {rest : PyStr}
    (h : containsSub rest pat = true) : containsSub (c :: rest) pat = true := by
  simp [containsSub, h]

lemma containsSub_append_middle (pre pat suf : PyStr) :
    containsSub (pre ++ pat ++ suf) pat = true := by
  induction pre with
  | nil =>
    simpa using containsSub_of_prefixAt (isPrefixList_append_self pat suf)
  | cons c cs ih => simpa using containsSub_cons c ih

lemma pyIn_append_middle (pre pat suf : PyStr) : pyIn pat (pre ++ pat ++ suf) = true :=
  containsSub_append_middle pre pat suf

lemma pyIn_append_of_suffix (pre pat : PyStr) : pyIn pat (pre ++ pat) = true := by
  simpa using pyIn_append_middle pre pat []

lemma ne_of_take_ne {m₁ m₂ : PyStr} (n : Nat) (h : m₁.take n ≠ m₂.take n) : m₁ ≠ m₂ :=
  fun he => h (he ▸ rfl)

/-- `web_research` always succeeds and returns exactly its own query and
one result text. -/
lemma web_research_ok (q : PyStr) (o : GroundedOutcome) :
    ∃ u, web_research q o = Except.ok u ∧ u.search_query = [q] ∧
      u.web_research_result.length = 1 := by
  cases o with
  | raiseErr e => exact ⟨handle_api_error e q, rfl, rfl, rfl⟩
  | emptyResponse => exact ⟨handle_api_error (.otherExc emptyRespDetail) q, rfl, rfl, rfl⟩
  | noGrounding t =>
    exact ⟨{ sources_gathered := [], search_query := [q],
             web_research_result := [pyOrStr t noResultsText] }, rfl, rfl, rfl⟩
  | grounded post =>
    cases post with
    | error e => exact ⟨handle_api_error e q, rfl, rfl, rfl⟩
    | ok p =>
      exact ⟨{ sources_gathered := p.2, search_query := [q],
               web_research_result := [p.1] }, rfl, rfl, rfl⟩

/-- `reflection` always succeeds, records the executed-query count it was
given, and increments the loop count by exactly one. -/
lemma reflection_ok (p : Option Nat) (n : Nat) (o : ReflOutcome) :
    ∃ u, reflection p n o = Except.ok u ∧ u.number_of_ran_queries = n ∧
      u.research_loop_count = p.getD 0 + 1 := by
  cases o with
  | success r => exact ⟨_, rfl, rfl, rfl⟩
  | raiseErr e => cases e <;> exact ⟨_, rfl, rfl, rfl⟩

lemma applyWebUpdate_search_query (s : OverallState) (u : WebUpdate) :
    (applyWebUpdate s u).search_query = s.search_query ++ u.search_query := rfl

lemma applyBatch_search_query :
    ∀ (qs : List PyStr) (st : OverallState) (f : Nat → GroundedOutcome),
      (applyBatch st qs f).search_query = st.search_query ++ qs := by
  intro qs
  induction qs with
  | nil => intro st f; simp [applyBatch]
  | cons q rest ih =>
    intro st f
    obtain ⟨u, hu, husq, -⟩ := web_research_ok q (f 0)
    simp only [applyBatch]
    rw [hu]
    rw [ih]
    simp [applyWebUpdate, husq]

lemma applyBatch_loop_count :
    ∀ (qs : List PyStr) (st : OverallState) (f : Nat → GroundedOutcome),
      (applyBatch st qs f).research_loop_count = st.research_loop_count := by
  intro qs
  induction qs with
  | nil => intro st f; simp [applyBatch]
  | cons q rest ih =>
    intro st f
    obtain ⟨u, hu, -, -⟩ := web_research_ok q (f 0)
    simp only [applyBatch]
    rw [hu, ih]
    rfl

/-- Characterisation of the finalize route of `evaluate_research`. -/
lemma evaluate_research_finalize_iff (s : ReflectionState) (cfg : Nat) :
    evaluate_research s cfg = Route.finalize ↔
      (s.is_sufficient = true ∨ s.max_research_loops.getD cfg ≤ s.research_loop_count) := by
  unfold evaluate_research
  dsimp only
  split
  · simp_all
  · simp_all

/-- Inversion of the fan-out route of `evaluate_research`. -/
lemma evaluate_research_fanout {s : ReflectionState} {cfg : Nat} {ts : List SendTask}
    (h : evaluate_research s cfg = Route.fanout ts) :
    ts = s.follow_up_queries.enum.map
      (fun p => { search_query := p.2, id := s.number_of_ran_queries + p.1 }) ∧
    s.is_sufficient = false ∧ s.research_loop_count < s.max_research_loops.getD cfg := by
  unfold evaluate_research at h
  dsimp only at h
  split at h
  · exact absurd h (by simp)
  · next hc =>
    push_neg at hc
    injection h with h
    exact ⟨h.symm, by simpa using hc.1, hc.2⟩

/-- The ids of a fanned-out batch whose task ids are `g` applied to the
batch position. -/
lemma enumMap_ids (l : List PyStr) (g : Nat → Nat) :
    ((l.enum.map (fun p => ({ search_query := p.2, id := g p.1 } : SendTask))).map
        SendTask.id) = (List.range l.length).map g := by
  rw [List.map_map]
  have h : (SendTask.id ∘ fun p : Nat × PyStr =>
      ({ search_query := p.2, id := g p.1 } : SendTask)) = g ∘ Prod.fst := rfl
  rw [h, ← List.map_map, List.enum_map_fst]

lemma mem_shifted_range {n m a : Nat} (h : a ∈ (List.range m).map (fun i => n + i)) :
    n ≤ a ∧ a < n + m := by
  obtain ⟨i, hi, rfl⟩ := List.mem_map.mp h
  have := List.mem_range.mp hi
  omega

lemma nodup_shifted_range (n m : Nat) : ((List.range m).map (fun i => n + i)).Nodup :=
  (List.nodup_range m).map (fun a b h => by omega)

/-- Every task id produced by the loop after state `st` is at least the
number of queries already executed in `st`. -/
lemma runLoop_id_ge (cfg : Nat) :
    ∀ (rounds : List RoundInput) (st : OverallState) (t : SendTask),
      t ∈ runLoop cfg st rounds → st.search_query.length ≤ t.id := by
  intro rounds
  induction rounds with
  | nil => intro st t h; simp [runLoop] at h
  | cons r rest ih =>
    intro st t h
    obtain ⟨ru, hru, hn, -⟩ := reflection_ok st.research_loop_count st.search_query.length r.refl
    simp only [runLoop] at h
    rw [hru] at h
    simp only at h
    revert h
    split
    · intro h; simp at h
    · next tasks hev =>
      intro h
      obtain ⟨hts, -, -⟩ := evaluate_research_fanout hev
      rcases List.mem_append.mp h with hmem | hmem
      · subst hts
        dsimp only at hmem
        have hmem2 : t.id ∈ ((ru.follow_up_queries.enum.map
            (fun p => ({ search_query := p.2, id := ru.number_of_ran_queries + p.1 } : SendTask))).map
              SendTask.id) := List.mem_map_of_mem SendTask.id hmem
        rw [enumMap_ids] at hmem2
        have := mem_shifted_range hmem2
        omega
      · have hb := ih _ t hmem
        rw [applyBatch_search_query] at hb
        simp only [List.length_append] at hb
        omega

/-- The task ids produced by the loop are pairwise distinct. -/
lemma runLoop_nodup (cfg : Nat) :
    ∀ (rounds : List RoundInput) (st : OverallState),
      ((runLoop cfg st rounds).map SendTask.id).Nodup := by
  intro rounds
  induction rounds with
  | nil => intro st; simp [runLoop]
  | cons r rest ih =>
    intro st
    obtain ⟨ru, hru, hn, -⟩ := reflection_ok st.research_loop_count st.search_query.length r.refl
    simp only [runLoop]
    rw [hru]
    simp only
    split
    · simp
    · next tasks hev =>
      obtain ⟨hts, -, -⟩ := evaluate_research_fanout hev
      rw [List.map_append]
      subst hts
      dsimp only
      refine List.Nodup.append ?_ (ih _) ?_
      · rw [enumMap_ids]
        exact nodup_shifted_range _ _
      · intro a ha hb
        rw [enumMap_ids] at ha
        have hbound := mem_shifted_range ha
        obtain ⟨t, htmem, rfl⟩ := List.mem_map.mp hb
        have := runLoop_id_ge cfg rest _ t htmem
        rw [applyBatch_search_query] at this
        simp only [List.length_append] at this
        omega

/-- `p₁ ++ x` and `p₂ ++ y` differ whenever the fixed heads `p₁`, `p₂`
already differ within their first six characters. -/
lemma append_ne_of_heads_ne {p₁ p₂ : PyStr} (x y : PyStr)
    (hp : p₁.take 6 ≠ p₂.take 6) (h₁ : 6 ≤ p₁.length) (h₂ : 6 ≤ p₂.length) :
    p₁ ++ x ≠ p₂ ++ y := by
  apply ne_of_take_ne 6
  rw [List.take_append_of_le_length h₁, List.take_append_of_le_length h₂]
  exact hp

/-! ### The claims -/

/-- Claim C1: `evaluate_research` routes to `finalize_answer` if and only
if `is_sufficient` is true or the loop count has reached the effective
maximum (the state override when present, the configured value
otherwise); this is the sole condition for finalization, and reaching the
maximum overrides an insufficient judgment. -/
theorem claim_C1_finalize_route_iff (s : ReflectionState) (cfg : Nat) :
    evaluate_research s cfg = Route.finalize ↔
      (s.is_sufficient = true ∨ s.max_research_loops.getD cfg ≤ s.research_loop_count) :=
  evaluate_research_finalize_iff s cfg

/-- Claim C2, counterexample: with `sufficient = false`, no follow-up
queries and rounds remaining (loop count 1 of maximum 2), the router does
not proceed to finalization — it returns an empty fan-out instead of
`finalize_answer`, so the claimed implicit-sufficient guard is absent. -/
theorem claim_C2_counterexample :
    evaluate_research ⟨false, [], 1, 0, none⟩ 2 = Route.fanout [] ∧
    evaluate_research ⟨false, [], 1, 0, none⟩ 2 ≠ Route.finalize := by
  decide

/-- Claim C2, amended: when an evaluation returns `sufficient = false`
with an empty follow-up list while rounds remain, `evaluate_research`
does not route to finalization; it fans out exactly zero tasks (an empty
`Send` batch), scheduling no further research work from this decision. -/
theorem claim_C2_empty_followups_zero_fanout (s : ReflectionState) (cfg : Nat)
    (h1 : s.is_sufficient = false)
    (h2 : s.research_loop_count < s.max_research_loops.getD cfg)
    (h3 : s.follow_up_queries = []) :
    evaluate_research s cfg = Route.fanout [] := by
  unfold evaluate_research
  dsimp only
  have hc : ¬(s.is_sufficient = true ∨
      s.max_research_loops.getD cfg ≤ s.research_loop_count) := by
    rintro (h | h)
    · rw [h1] at h; cases h
    · omega
  rw [if_neg hc, h3]
  rfl

/-- Witness for the amended claim C2 at a concrete state. -/
theorem claim_C2_witness :
    evaluate_research ⟨false, [], 1, 0, none⟩ 3 = Route.fanout [] :=
  claim_C2_empty_followups_zero_fanout ⟨false, [], 1, 0, none⟩ 3 rfl (by decide) rfl

/-- Claim C3, counterexample: at a grounding-free response whose raw text
is empty, `web_research` does not return the raw response text — the
`response.text or ...` idiom substitutes the non-empty placeholder
`No search results available.` instead. -/
theorem claim_C3_counterexample :
    web_research (("q").data) (GroundedOutcome.noGrounding (some [])) =
      Except.ok { sources_gathered := []
                  search_query := [("q").data]
                  web_research_result := [noResultsText] } ∧
    noResultsText ≠ ([] : PyStr) :=
  ⟨rfl, by decide⟩

/-- Claim C3, amended: for every query and every outcome of the
grounded-search call (raised quota, API or unexpected exceptions, empty
response, missing grounding metadata, or a post-processing failure),
`web_research` never propagates an error and returns exactly one result
text together with its query; when the response merely lacks grounding
metadata, it returns the response text with zero citations if that text
is non-empty, and the placeholder `No search results available.` (still
with zero citations) when the text is empty or missing. -/
theorem claim_C3_web_research_never_raises (q : PyStr) (o : GroundedOutcome) :
    (∃ u, web_research q o = Except.ok u ∧ u.search_query = [q] ∧
        u.web_research_result.length = 1) ∧
    (∀ t : Option PyStr,
        web_research q (GroundedOutcome.noGrounding t) =
          Except.ok { sources_gathered := []
                      search_query := [q]
                      web_research_result := [pyOrStr t noResultsText] }) ∧
    (∀ t : PyStr, t ≠ [] → pyOrStr (some t) noResultsText = t) ∧
    (pyOrStr (some []) noResultsText = noResultsText ∧
      pyOrStr none noResultsText = noResultsText) := by
  refine ⟨web_research_ok q o, fun t => rfl, ?_, rfl, rfl⟩
  intro t ht
  simp [pyOrStr, ht]

/-- Witness for the amended claim C3: a concrete non-empty grounding-free
text is passed through raw, and a missing text yields the placeholder. -/
theorem claim_C3_witness :
    pyOrStr (some (("text").data)) noResultsText = (("text").data) ∧
    web_research (("hi").data) (GroundedOutcome.noGrounding none) =
      Except.ok { sources_gathered := []
                  search_query := [("hi").data]
                  web_research_result := [pyOrStr none noResultsText] } :=
  ⟨(claim_C3_web_research_never_raises (("hi").data) GroundedOutcome.emptyResponse).2.2.1
      (("text").data) (by decide),
   (claim_C3_web_research_never_raises (("hi").data) GroundedOutcome.emptyResponse).2.1 none⟩

/-- Claim C4: whenever the external generation call inside `reflection`
raises (any error class), the evaluation still succeeds and returns
`is_sufficient = true`, an empty follow-up list, and a knowledge-gap
message that contains the failure's description — it never fails toward
more rounds. -/
theorem claim_C4_reflection_failsafe (p : Option Nat) (n : Nat) (e : PyErr) :
    ∃ u, reflection p n (ReflOutcome.raiseErr e) = Except.ok u ∧
      u.is_sufficient = true ∧ u.follow_up_queries = [] ∧
      pyIn (errStr e) u.knowledge_gap = true := by
  cases e with
  | resourceExhausted d => exact ⟨_, rfl, rfl, rfl, pyIn_append_of_suffix reflApiGapPre d⟩
  | googleAPIError d => exact ⟨_, rfl, rfl, rfl, pyIn_append_of_suffix reflApiGapPre d⟩
  | otherExc d => exact ⟨_, rfl, rfl, rfl, pyIn_append_of_suffix reflUnexpectedGapPre d⟩

/-- Claim C5: initial tasks get `sequenceId` equal to their 0-based batch
position; each follow-up batch's tasks get `sequenceId` equal to the
number of already-executed queries plus their batch position; over a whole
run (initial batch plus any number of loop rounds) the assigned
`sequenceId`s are pairwise distinct, and so are the short handles derived
by any injective handle function. -/
theorem claim_C5_sequence_ids :
    (∀ qs : List PyStr,
        (continue_to_web_research qs).map SendTask.id = List.range qs.length) ∧
    (∀ (s : ReflectionState) (cfg : Nat) (ts : List SendTask),
        evaluate_research s cfg = Route.fanout ts →
        ts.map SendTask.id =
          (List.range s.follow_up_queries.length).map
            (fun i => s.number_of_ran_queries + i)) ∧
    (∀ (cfg : Nat) (initQs : List PyStr) (f0 : Nat → GroundedOutcome)
        (rounds : List RoundInput),
        ((allTasks cfg initQs f0 rounds).map SendTask.id).Nodup) ∧
    (∀ (cfg : Nat) (initQs : List PyStr) (f0 : Nat → GroundedOutcome)
        (rounds : List RoundInput) (handleOf : Nat → PyStr),
        Function.Injective handleOf →
        ((allTasks cfg initQs f0 rounds).map (fun t => handleOf t.id)).Nodup) := by
  have h1 : ∀ qs : List PyStr,
      (continue_to_web_research qs).map SendTask.id = List.range qs.length := by
    intro qs
    have h := enumMap_ids qs (fun i => i)
    simpa [continue_to_web_research] using h
  have h3 : ∀ (cfg : Nat) (initQs : List PyStr) (f0 : Nat → GroundedOutcome)
      (rounds : List RoundInput),
      ((allTasks cfg initQs f0 rounds).map SendTask.id).Nodup := by
    intro cfg qs f0 rounds
    unfold allTasks
    rw [List.map_append]
    refine List.Nodup.append ?_ (runLoop_nodup cfg rounds _) ?_
    · rw [h1]; exact List.nodup_range _
    · intro a ha hb
      rw [h1] at ha
      have ha2 := List.mem_range.mp ha
      obtain ⟨t, htmem, rfl⟩ := List.mem_map.mp hb
      have hge := runLoop_id_ge cfg rounds _ t htmem
      rw [applyBatch_search_query] at hge
      simp only [List.nil_append] at hge
      omega
  refine ⟨h1, ?_, h3, ?_⟩
  · intro s cfg ts h
    obtain ⟨hts, -, -⟩ := evaluate_research_fanout h
    subst hts
    exact enumMap_ids _ _
  · intro cfg qs f0 rounds handleOf hinj
    have hmm : (allTasks cfg qs f0 rounds).map (fun t => handleOf t.id) =
        ((allTasks cfg qs f0 rounds).map SendTask.id).map handleOf := by
      rw [List.map_map]; rfl
    rw [hmm]
    exact (h3 cfg qs f0 rounds).map hinj

/-- Witness for claim C5: a concrete two-query run with one follow-up
round has pairwise-distinct ids, and a concrete fan-out assigns id 2 to
the follow-up of a run with two executed queries. -/
theorem claim_C5_witness :
    ((allTasks 5 [("a").data, ("b").data] (fun _ => GroundedOutcome.emptyResponse)
        [⟨ReflOutcome.success ⟨false, [], [("c").data]⟩,
          fun _ => GroundedOutcome.emptyResponse⟩]).map SendTask.id).Nodup ∧
    ([({ search_query := ("c").data, id := 2 } : SendTask)].map SendTask.id =
      (List.range 1).map (fun i => 2 + i)) := by
  refine ⟨claim_C5_sequence_ids.2.2.1 5 _ _ _, ?_⟩
  have h := claim_C5_sequence_ids.2.1 ⟨false, [("c").data], 1, 2, none⟩ 5
    [⟨("c").data, 2⟩] (by decide)
  simpa using h

/-- Claim C6: `research_loop_count` becomes exactly its previous value
plus one on every invocation of `reflection` (success or failure of the
external call alike), while merging any `web_research` task update — or a
whole batch of them — never changes it. -/
theorem claim_C6_loop_count_increment (p : Option Nat) (n : Nat) (o : ReflOutcome) :
    (∃ u, reflection p n o = Except.ok u ∧ u.research_loop_count = p.getD 0 + 1) ∧
    (∀ (st : OverallState) (w : WebUpdate),
        (applyWebUpdate st w).research_loop_count = st.research_loop_count) ∧
    (∀ (st : OverallState) (qs : List PyStr) (f : Nat → GroundedOutcome),
        (applyBatch st qs f).research_loop_count = st.research_loop_count) := by
  refine ⟨?_, fun st w => rfl, fun st qs f => applyBatch_loop_count qs st f⟩
  obtain ⟨u, hu, -, hc⟩ := reflection_ok p n o
  exact ⟨u, hu, hc⟩

/-- Claim C7: the finalizer's citation pass is a single left-to-right
fold; a source whose handle occurs in the current text has every
occurrence replaced by its original value and is retained, and a source
whose handle does not occur is dropped and leaves the text unchanged; on
the spec's concrete example the text becomes `See http://x and [b].` with
only the `[a]` source retained. -/
theorem claim_C7_finalize_citation_pass :
    (finalizeCitations (("See [a] and [b].").data)
        [{ short_url := ("[a]").data, value := ("http://x").data },
         { short_url := ("[c]").data, value := ("http://z").data }] =
      ((("See http://x and [b].").data),
        [{ short_url := ("[a]").data, value := ("http://x").data }])) ∧
    (∀ (acc : PyStr × List SourceCit) (s : SourceCit),
        pyIn s.short_url acc.1 = false → citeStep acc s = acc) ∧
    (∀ (acc : PyStr × List SourceCit) (s : SourceCit),
        pyIn s.short_url acc.1 = true →
          citeStep acc s = (pyReplace acc.1 s.short_url s.value, acc.2 ++ [s])) ∧
    (∀ (content : PyStr) (sources : List SourceCit),
        finalizeCitations content sources = sources.foldl citeStep (content, [])) := by
  refine ⟨by decide, ?_, ?_, fun c s => rfl⟩
  · intro acc s h; simp [citeStep, h]
  · intro acc s h; simp [citeStep, h]

/-- Witness for claim C7 at a concrete non-occurring handle. -/
theorem claim_C7_witness :
    citeStep ((("See x").data), []) { short_url := ("[z]").data, value := ("u").data } =
      ((("See x").data), []) :=
  claim_C7_finalize_citation_pass.2.1 ((("See x").data), [])
    { short_url := ("[z]").data, value := ("u").data } (by decide)

/-- Claim C8: `handle_api_error` classifies every error into exactly one
of three classes; each class's degraded message embeds the original query
text; the three messages are pairwise distinct (whatever the query and
error details); the citation list is empty in all classes; and the
unexpected-error message carries no internal error detail (it is the same
message whatever the underlying error was). -/
theorem claim_C8_fallback_policy (e : PyErr) (q : PyStr) :
    (handle_api_error e q).sources_gathered = [] ∧
    (handle_api_error e q).web_research_result = [fallbackMessage e q] ∧
    pyIn q (fallbackMessage e q) = true ∧
    (∀ d₁ d₂ : PyStr, fallbackMessage (PyErr.resourceExhausted d₁) q ≠
        fallbackMessage (PyErr.googleAPIError d₂) q) ∧
    (∀ d₁ d₂ : PyStr, fallbackMessage (PyErr.resourceExhausted d₁) q ≠
        fallbackMessage (PyErr.otherExc d₂) q) ∧
    (∀ d₁ d₂ : PyStr, fallbackMessage (PyErr.googleAPIError d₁) q ≠
        fallbackMessage (PyErr.otherExc d₂) q) ∧
    (∀ d₁ d₂ : PyStr, fallbackMessage (PyErr.otherExc d₁) q =
        fallbackMessage (PyErr.otherExc d₂) q) := by
  refine ⟨rfl, rfl, ?_, ?_, ?_, ?_, fun d₁ d₂ => rfl⟩
  · cases e with
    | resourceExhausted d => exact pyIn_append_middle quotaMsgPre q quotaMsgSuf
    | googleAPIError d => exact pyIn_append_middle apiMsgPre q _
    | otherExc d => exact pyIn_append_middle unexpectedMsgPre q unexpectedMsgSuf
  · intro d₁ d₂
    simp only [fallbackMessage, List.append_assoc]
    exact append_ne_of_heads_ne _ _ (by decide) (by decide) (by decide)
  · intro d₁ d₂
    simp only [fallbackMessage, List.append_assoc]
    exact append_ne_of_heads_ne _ _ (by decide) (by decide) (by decide)
  · intro d₁ d₂
    simp only [fallbackMessage, List.append_assoc]
    exact append_ne_of_heads_ne _ _ (by decide) (by decide) (by decide)

/-- Witness for claim C8 at a concrete error and query. -/
theorem claim_C8_witness :
    pyIn (("foo").data) (fallbackMessage (PyErr.resourceExhausted []) (("foo").data)) = true ∧
    fallbackMessage (PyErr.resourceExhausted []) (("foo").data) ≠
      fallbackMessage (PyErr.googleAPIError []) (("foo").data) :=
  ⟨(claim_C8_fallback_policy (PyErr.resourceExhausted []) (("foo").data)).2.2.1,
   (claim_C8_fallback_policy (PyErr.resourceExhausted []) (("foo").data)).2.2.2.1 [] []⟩

/-- Claim C9, counterexample: for the empty topic, the failure fallback of
`generate_query` is the single query `topic[:100]`, which is itself the
empty string — it does not have at least one character. -/
theorem claim_C9_counterexample :
    generate_query [] (GenOutcome.raiseErr (PyErr.otherExc [])) =
      Except.ok { query_list := [pySlice 100 []] } ∧
    pySlice 100 [] = ([] : PyStr) :=
  ⟨rfl, rfl⟩

/-- Claim C9, amended: on any failure of the external call,
`generate_query` returns (never raises) a single-element query list whose
only entry is the topic truncated to at most 100 characters; the list is
always non-empty, but for an empty topic the fallback query itself is
empty. -/
theorem claim_C9_fallback_nonpropagation (topic : PyStr) (e : PyErr) :
    generate_query topic (GenOutcome.raiseErr e) =
      Except.ok { query_list := [pySlice 100 topic] } ∧
    ({ query_list := [pySlice 100 topic] } : QueryGenUpdate).query_list.length = 1 ∧
    (pySlice 100 topic).length = min 100 topic.length :=
  ⟨rfl, rfl, List.length_take 100 topic⟩

/-- Claim C10: every `web_research` invocation, in every outcome class,
contributes exactly one entry — its own query — to the executed-query
sequence and exactly one text to the accumulated research results. -/
theorem claim_C10_exactly_one_append (q : PyStr) (o : GroundedOutcome) (st : OverallState) :
    ∃ u, web_research q o = Except.ok u ∧
      (applyWebUpdate st u).search_query = st.search_query ++ [q] ∧
      (applyWebUpdate st u).web_research_result.length =
        st.web_research_result.length + 1 := by
  obtain ⟨u, hu, hsq, hlen⟩ := web_research_ok q o
  refine ⟨u, hu, ?_, ?_⟩
  · rw [applyWebUpdate_search_query, hsq]
  · simp [applyWebUpdate, hlen]

end Agent
